import Mathlib

/-
Verification of the building / parking-lot synthesis pipeline
(map_model/src/make/buildings.rs) and the diagnostic wrapper
(abstutil/src/logs.rs) of the abstreet repository.

The external collaborators (the road network `Map`, the sidewalk resolver
`find_sidewalk_points`, and the 2D geometry primitives) are out of scope for
the repository excerpt; they are embedded as oracle structures whose fields
are the exact queries the excerpted code performs.  Real numbers of the
source (f64 distances, coordinates and areas) are embedded as integers, which keeps
every comparison the source makes decidable and executable; the claims under
verification only involve integral scalar values.
-/

set_option autoImplicit false

namespace AbStreet

/-- A 2D point (geom::Pt2D).  Coordinates are embedded as integers. -/
structure Pt where
  x : Int
  y : Int
  deriving DecidableEq, Repr

/-- A line segment (geom::Line) with its two endpoints.  The source
constructs these with Line::new; validity (positive length) is the concern
of maybe_new below. -/
structure Line where
  pt1 : Pt
  pt2 : Pt
  deriving DecidableEq, Repr

/-- Modelled from the spec: external geometry primitive Line::maybe_new.
A line exists only when its endpoints differ (strictly positive length);
otherwise construction fails with None. -/
def Line.maybe_new (p1 p2 : Pt) : Option Line :=
  if p1 = p2 then none else some ⟨p1, p2⟩

/-- A polygon (geom::Polygon) as consumed by the excerpted code: its boundary
point sequence plus the three derived geometric attributes the code queries
(center, area, polylabel).  The derivations themselves are external geometry
primitives, so they are carried as data of the oracle polygon. -/
structure Polygon where
  points : List Pt
  center : Pt
  area : Int
  polylabel : Pt
  deriving DecidableEq, Repr

/-- The external geometry collaborator: the one binary primitive the
excerpted code calls, segment intersection (geom::Line::intersection). -/
structure GeomOracle where
  intersection : Line → Line → Option Pt

/-- Lane identifiers (LaneID). -/
abbrev LaneID := Nat

/-- A network position (Position): a lane plus a distance along it. -/
structure Position where
  lane : LaneID
  dist_along : Int
  deriving DecidableEq, Repr

/-- The external road-network collaborator (`Map` plus the sidewalk
resolver), reduced to exactly the queries the excerpted code performs.
`resolve r` is the point-to-position mapping returned by the single batch
call to find_sidewalk_points with search radius `r`; points with no
reachable sidewalk within the radius are absent (None).
`find_closest_driving_lane l` is map.get_parent(l).find_closest_lane(l,
vec![LaneType::Driving]), with Err embedded as None.
`equiv_pos_dist pos l` is the distance along `l` of
pos.equiv_pos(l, Distance::ZERO, map); modelled from the spec: the
projection of a position onto another lane of the same road lies on that
target lane. -/
structure MapM where
  pt_of_pos : Position → Pt
  resolve : Int → Pt → Option Position
  find_closest_driving_lane : LaneID → Option LaneID
  equiv_pos_dist : Position → LaneID → Int
  lane_length : LaneID → Int
  road_name : LaneID → String

/-- One diagnostic emitted through the Timer while a batch runs.  Each
constructor corresponds to one format! call site in the source and carries
the data interpolated there (the rendering of external Display
implementations is out of scope). -/
inductive Diag where
  /-- timer.warn "Skipping building {orig_id} because front path has 0 length" -/
  | skipBuildingZeroLength (osmWayId : Int) : Diag
  /-- timer.warn "{bldg.id} can not have a driveway. Forfeiting {n} parking spots" -/
  | buildingNoDriveway (id : Nat) (numSpots : Nat) : Diag
  /-- timer.note "Discarded {n} buildings that were not close enough to a sidewalk" -/
  | discardedBuildings (count : Nat) : Diag
  /-- timer.warn "Skipping parking lot {osm_id} because driveway has 0 length" -/
  | skipLotZeroLength (osmId : Int) : Diag
  /-- timer.warn "Parking lot from OSM way {osm_id} can not have a driveway. Forfeiting {capacity} parking spots" -/
  | lotNoDriveway (osmId : Int) (capacity : Option Nat) : Diag
  /-- timer.note "Discarded {n} parking lots that were not close enough to a sidewalk" -/
  | discardedLots (count : Nat) : Diag
  deriving DecidableEq, Repr

/-- Raw input building identifier (raw::OriginalBuilding). -/
structure OriginalBuilding where
  osm_way_id : Int
  deriving DecidableEq, Repr

/-- Raw input building (raw::RawBuilding), with the fields the excerpted
code reads.  Tag maps are embedded as association lists. -/
structure RawBuilding where
  polygon : Polygon
  osm_tags : List (String × String)
  public_garage_name : Option String
  num_parking_spots : Nat
  amenities : List (String × String)
  deriving DecidableEq, Repr

/-- Raw input parking lot (raw::RawParkingLot). -/
structure RawParkingLot where
  polygon : Polygon
  capacity : Option Nat
  osm_id : Int
  deriving DecidableEq, Repr

/-- FrontPath: the sidewalk position plus the trimmed connector line. -/
structure FrontPath where
  sidewalk : Position
  line : Line
  deriving DecidableEq, Repr

/-- OffstreetParking: the vehicle-access data attached to a building. -/
structure OffstreetParking where
  public_garage_name : Option String
  num_spots : Nat
  driveway_line : List Pt
  driving_pos : Position
  deriving DecidableEq, Repr

/-- A synthesized Building. -/
structure Building where
  id : Nat
  polygon : Polygon
  address : String
  name : Option String
  osm_way_id : Int
  front_path : FrontPath
  amenities : List (String × String)
  parking : Option OffstreetParking
  label_center : Pt
  deriving DecidableEq, Repr

/-- A synthesized ParkingLot. -/
structure ParkingLot where
  id : Nat
  polygon : Polygon
  capacity : Nat
  osm_id : Int
  driveway_line : List Pt
  driving_pos : Position
  sidewalk_line : Line
  sidewalk_pos : Position
  deriving DecidableEq, Repr

/-- The consecutive boundary edges of a point sequence: poly.points().windows(2). -/
def windows2 : List Pt → List (Pt × Pt)
  | a :: b :: rest => (a, b) :: windows2 (b :: rest)
  | _ => []

/-- Walk the boundary edges; on each edge, intersect it with the path and,
when Line::maybe_new accepts the segment from the hit to the path end,
return that segment; otherwise keep walking.  Exhausting the edges returns
the untrimmed path. -/
def trim_path_loop (g : GeomOracle) (path : Line) : List (Pt × Pt) → Line
  | [] => path
  | (a, b) :: rest =>
    match g.intersection (Line.mk a b) path with
    | some hit =>
      match Line.maybe_new hit path.pt2 with
      | some l => l
      | none => trim_path_loop g path rest
    | none => trim_path_loop g path rest

/-- trim_path: adjust the path to start on the border of the polygon, not
its center. -/
def trim_path (g : GeomOracle) (poly : Polygon) (path : Line) : Line :=
  trim_path_loop g path (windows2 poly.points)

/-- Lookup in an association-list tag map (BTreeMap::get). -/
def tagsGet (tags : List (String × String)) (k : String) : Option String :=
  (tags.find? (fun p => p.1 == k)).map (fun p => p.2)

/-- The external tag-key constant osm::NAME. -/
def osm_NAME : String := "name"

/-- get_address: house number and street tag, street tag alone with a
placeholder, or the placeholder plus the display name of the road owning
the sidewalk lane. -/
def get_address (tags : List (String × String)) (sidewalk : LaneID) (m : MapM) : String :=
  match tagsGet tags "addr:housenumber", tagsGet tags "addr:street" with
  | some num, some st => num ++ " " ++ st
  | none, some st => "??? " ++ st
  | _, _ => "??? " ++ m.road_name sidewalk

/-- The Rust expression `(area / 23.0) as usize`: divide by the per-space
constant, truncate toward zero, and clamp negatives to zero (the semantics
of the f64-to-usize cast). -/
def estimatedCapacity (area : Int) : Nat := (Int.tdiv area 23).toNat

/-- The driveway attempt shared by both batches: find the closest driving
lane next to the sidewalk lane; project the sidewalk position onto it; the
result stands only when the projected distance is more than the 7 meter
buffer from both ends of that lane. -/
def drivewayPos (m : MapM) (pos : Position) : Option Position :=
  match m.find_closest_driving_lane pos.lane with
  | none => none
  | some driving_lane =>
    let d := m.equiv_pos_dist pos driving_lane
    if 7 < d ∧ 7 < m.lane_length driving_lane - d then
      some ⟨driving_lane, d⟩
    else
      none

/-- Construct the Building record for one raw building whose sidewalk
position `pos` was resolved and differs from its center: trimmed front
path, address, name, label point, and the optional vehicle access from the
driveway attempt. -/
def mkBuilding (g : GeomOracle) (m : MapM) (n : Nat) (oid : OriginalBuilding)
    (b : RawBuilding) (pos : Position) : Building :=
  let sidewalk_pt := m.pt_of_pos pos
  let sidewalk_line := trim_path g b.polygon (Line.mk b.polygon.center sidewalk_pt)
  { id := n
    polygon := b.polygon
    address := get_address b.osm_tags pos.lane m
    name := tagsGet b.osm_tags osm_NAME
    osm_way_id := oid.osm_way_id
    front_path := { sidewalk := pos, line := sidewalk_line }
    amenities := b.amenities
    parking := (drivewayPos m pos).map (fun dpos =>
      { public_garage_name := b.public_garage_name
        num_spots := b.num_parking_spots
        driveway_line := [sidewalk_line.pt1, sidewalk_line.pt2, m.pt_of_pos dpos]
        driving_pos := dpos })
    label_center := b.polygon.polylabel }

/-- Construct the ParkingLot record for one raw lot whose sidewalk position
`pos` was resolved, differs from its center, and whose driveway attempt
produced `dpos`. -/
def mkParkingLot (g : GeomOracle) (m : MapM) (n : Nat) (orig : RawParkingLot)
    (pos dpos : Position) : ParkingLot :=
  let sidewalk_pt := m.pt_of_pos pos
  let sidewalk_line := trim_path g orig.polygon (Line.mk orig.polygon.center sidewalk_pt)
  { id := n
    polygon := orig.polygon
    capacity := orig.capacity.getD (estimatedCapacity orig.polygon.area)
    osm_id := orig.osm_id
    driveway_line := [sidewalk_line.pt1, sidewalk_line.pt2, m.pt_of_pos dpos]
    driving_pos := dpos
    sidewalk_line := sidewalk_line
    sidewalk_pos := pos }

/-- The per-building loop of make_all_buildings.  `pts` is the resolver
result for this batch; `n` is results.len() so far.  Returns the created
buildings and the warnings emitted, both in traversal order. -/
def buildingsLoop (g : GeomOracle) (m : MapM) (pts : Pt → Option Position) :
    List (OriginalBuilding × RawBuilding) → Nat → List Building × List Diag
  | [], _ => ([], [])
  | (oid, b) :: rest, n =>
    match pts b.polygon.center with
    | none => buildingsLoop g m pts rest n
    | some sidewalk_pos =>
      if m.pt_of_pos sidewalk_pos = b.polygon.center then
        let r := buildingsLoop g m pts rest n
        (r.1, Diag.skipBuildingZeroLength oid.osm_way_id :: r.2)
      else
        let bldg := mkBuilding g m n oid b sidewalk_pos
        let r := buildingsLoop g m pts rest (n + 1)
        (bldg :: r.1,
          (if bldg.parking.isNone then [Diag.buildingNoDriveway n b.num_parking_spots] else [])
            ++ r.2)

/-- make_all_buildings: resolve every building center against the sidewalk
network at radius 100, run the per-building loop, and append the summary
note counting the discarded buildings. -/
def make_all_buildings (input : List (OriginalBuilding × RawBuilding)) (m : MapM)
    (g : GeomOracle) : List Building × List Diag :=
  let pts := m.resolve 100
  let r := buildingsLoop g m pts input 0
  (r.1, r.2 ++ [Diag.discardedBuildings (input.length - r.1.length)])

/-- The per-lot loop of make_all_parking_lots. -/
def lotsLoop (g : GeomOracle) (m : MapM) (pts : Pt → Option Position) :
    List RawParkingLot → Nat → List ParkingLot × List Diag
  | [], _ => ([], [])
  | orig :: rest, n =>
    match pts orig.polygon.center with
    | none => lotsLoop g m pts rest n
    | some sidewalk_pos =>
      if m.pt_of_pos sidewalk_pos = orig.polygon.center then
        let r := lotsLoop g m pts rest n
        (r.1, Diag.skipLotZeroLength orig.osm_id :: r.2)
      else
        match drivewayPos m sidewalk_pos with
        | some dpos =>
          let lot := mkParkingLot g m n orig sidewalk_pos dpos
          let r := lotsLoop g m pts rest (n + 1)
          (lot :: r.1, r.2)
        | none =>
          let r := lotsLoop g m pts rest n
          (r.1, Diag.lotNoDriveway orig.osm_id orig.capacity :: r.2)

/-- make_all_parking_lots: resolve every lot center at radius 500, run the
per-lot loop, and append the summary note. -/
def make_all_parking_lots (input : List RawParkingLot) (m : MapM)
    (g : GeomOracle) : List ParkingLot × List Diag :=
  let pts := m.resolve 500
  let r := lotsLoop g m pts input 0
  (r.1, r.2 ++ [Diag.discardedLots (input.length - r.1.length)])

/-- The diagnostic-carrying result wrapper (abstutil::Warn). -/
structure Warn (α : Type _) where
  value : α
  warnings : List String
  deriving DecidableEq, Repr

/-- Warn::ok. -/
def Warn.ok {α : Type _} (value : α) : Warn α :=
  { value := value, warnings := [] }

/-- Warn::warn. -/
def Warn.withWarning {α : Type _} (value : α) (warning : String) : Warn α :=
  { value := value, warnings := [warning] }

/-- Warn::warnings (named withWarnings here since the field already carries
the source name). -/
def Warn.withWarnings {α : Type _} (value : α) (warnings : List String) : Warn α :=
  { value := value, warnings := warnings }

/-- Warn::unwrap, with the println side channel made explicit: returns the
value together with the exact lines printed, a count header followed by
each warning in insertion order, or nothing when there are no warnings. -/
def Warn.unwrap {α : Type _} (w : Warn α) : α × List String :=
  if w.warnings.isEmpty then
    (w.value, [])
  else
    (w.value, (toString w.warnings.length ++ " warnings:") :: w.warnings)

/-- Warn::map: transform the value, keep the warnings. -/
def Warn.map {α β : Type _} (w : Warn α) (f : α → β) : Warn β :=
  { value := f w.value, warnings := w.warnings }

/-- Spec-side rendering of the trimming algorithm exactly as section 4.2
words it: on the first edge whose segment intersects the input line, return
the segment from that intersection point to the original exterior endpoint;
if no edge intersects, return the original line unchanged. -/
def trim_path_spec_loop (g : GeomOracle) (path : Line) : List (Pt × Pt) → Line
  | [] => path
  | (a, b) :: rest =>
    match g.intersection (Line.mk a b) path with
    | some hit => Line.mk hit path.pt2
    | none => trim_path_spec_loop g path rest

/-- Spec-side trimming algorithm, claim C3 as stated. -/
def trim_path_spec (g : GeomOracle) (poly : Polygon) (path : Line) : Line :=
  trim_path_spec_loop g path (windows2 poly.points)

/-- Amended spec-side trimming algorithm: an edge whose intersection point
coincides with the exterior endpoint (a degenerate trimmed segment) is
skipped, and the walk continues with the remaining edges. -/
def trim_path_amended_loop (g : GeomOracle) (path : Line) : List (Pt × Pt) → Line
  | [] => path
  | (a, b) :: rest =>
    match g.intersection (Line.mk a b) path with
    | some hit =>
      if hit = path.pt2 then trim_path_amended_loop g path rest
      else Line.mk hit path.pt2
    | none => trim_path_amended_loop g path rest

/-- Amended spec-side trimming algorithm, whole-polygon version. -/
def trim_path_amended (g : GeomOracle) (poly : Polygon) (path : Line) : Line :=
  trim_path_amended_loop g path (windows2 poly.points)

/-- A building input the batch does not produce an entity for: its center
resolved to no sidewalk position within the radius, or the resolved point
coincides with the center (zero-length connector). -/
def bldgSkipped (m : MapM) (pts : Pt → Option Position)
    (it : OriginalBuilding × RawBuilding) : Bool :=
  match pts it.2.polygon.center with
  | none => true
  | some pos => m.pt_of_pos pos = it.2.polygon.center

/-- A building input the batch emits one per-item warning for: zero-length
connector, or produced without vehicle access. -/
def bldgDegraded (m : MapM) (pts : Pt → Option Position)
    (it : OriginalBuilding × RawBuilding) : Bool :=
  match pts it.2.polygon.center with
  | none => false
  | some pos =>
    if m.pt_of_pos pos = it.2.polygon.center then true
    else (drivewayPos m pos).isNone

/-- A lot input the batch does not produce an entity for: unreachable
center, zero-length connector, or failed driveway attempt. -/
def lotSkipped (m : MapM) (pts : Pt → Option Position) (orig : RawParkingLot) : Bool :=
  match pts orig.polygon.center with
  | none => true
  | some pos =>
    if m.pt_of_pos pos = orig.polygon.center then true
    else (drivewayPos m pos).isNone

/-- A lot input the batch emits one per-item warning for: zero-length
connector or failed driveway attempt. -/
def lotDegraded (m : MapM) (pts : Pt → Option Position) (orig : RawParkingLot) : Bool :=
  match pts orig.polygon.center with
  | none => false
  | some pos =>
    if m.pt_of_pos pos = orig.polygon.center then true
    else (drivewayPos m pos).isNone

/-- A small concrete polygon oracle for concrete runs (area 46 so the
estimated lot capacity is 46 / 23 = 2). -/
def egPoly : Polygon :=
  { points := [⟨0, 0⟩, ⟨1, 0⟩, ⟨1, 1⟩, ⟨0, 0⟩]
    center := ⟨0, 0⟩
    area := 46
    polylabel := ⟨0, 0⟩ }

/-- A concrete geometry oracle under which no boundary edge intersects the
connector, so trimming falls back to the untrimmed line. -/
def egG : GeomOracle := { intersection := fun _ _ => none }

/-- A concrete network oracle: every center resolves to lane 0 at distance
50, positions render as points on the x axis, lane 1 is the closest driving
lane, every lane is 100 long. -/
def egM : MapM :=
  { pt_of_pos := fun pos => ⟨pos.dist_along, 0⟩
    resolve := fun _ _ => some ⟨0, 50⟩
    find_closest_driving_lane := fun _ => some 1
    equiv_pos_dist := fun pos _ => pos.dist_along
    lane_length := fun _ => 100
    road_name := fun _ => "Main St" }

/-- The same network oracle with no driving lane anywhere, so every
driveway attempt fails. -/
def egMnd : MapM :=
  { pt_of_pos := fun pos => ⟨pos.dist_along, 0⟩
    resolve := fun _ _ => some ⟨0, 50⟩
    find_closest_driving_lane := fun _ => none
    equiv_pos_dist := fun pos _ => pos.dist_along
    lane_length := fun _ => 100
    road_name := fun _ => "Main St" }

/-- A concrete raw building. -/
def egRawB : RawBuilding :=
  { polygon := egPoly
    osm_tags := []
    public_garage_name := none
    num_parking_spots := 3
    amenities := [] }

/-- A concrete building batch input of one item. -/
def egInput : List (OriginalBuilding × RawBuilding) := [(⟨7⟩, egRawB)]

/-- The building the concrete batch produces. -/
def egBldg : Building :=
  { id := 0
    polygon := egPoly
    address := "??? Main St"
    name := none
    osm_way_id := 7
    front_path := { sidewalk := ⟨0, 50⟩, line := ⟨⟨0, 0⟩, ⟨50, 0⟩⟩ }
    amenities := []
    parking := some
      { public_garage_name := none
        num_spots := 3
        driveway_line := [⟨0, 0⟩, ⟨50, 0⟩, ⟨50, 0⟩]
        driving_pos := ⟨1, 50⟩ }
    label_center := ⟨0, 0⟩ }

/-- A concrete raw parking lot with no declared capacity. -/
def egLotRaw : RawParkingLot := { polygon := egPoly, capacity := none, osm_id := 42 }

/-- A concrete lot batch input of one item. -/
def egLots : List RawParkingLot := [egLotRaw]

/-- The parking lot the concrete batch produces. -/
def egLot : ParkingLot :=
  { id := 0
    polygon := egPoly
    capacity := 2
    osm_id := 42
    driveway_line := [⟨0, 0⟩, ⟨50, 0⟩, ⟨50, 0⟩]
    driving_pos := ⟨1, 50⟩
    sidewalk_line := ⟨⟨0, 0⟩, ⟨50, 0⟩⟩
    sidewalk_pos := ⟨0, 50⟩ }

/-- A candidate connector for the trimming counterexample, from the origin
to the exterior target (10, 0). -/
def cePath : Line := ⟨⟨0, 0⟩, ⟨10, 0⟩⟩

/-- A one-edge polygon oracle for the trimming counterexample. -/
def cePoly : Polygon :=
  { points := [⟨0, 5⟩, ⟨1, 5⟩], center := ⟨0, 0⟩, area := 0, polylabel := ⟨0, 0⟩ }

/-- A geometry oracle under which the boundary edge meets the connector
exactly at its exterior endpoint (10, 0) — the situation of a target point
lying on the footprint boundary. -/
def ceG : GeomOracle := { intersection := fun _ _ => some ⟨10, 0⟩ }

theorem range'_cons (n k : Nat) : List.range' n (k + 1) = n :: List.range' (n + 1) k := rfl

theorem mkBuilding_id (g : GeomOracle) (m : MapM) (n : Nat) (oid : OriginalBuilding)
    (b : RawBuilding) (pos : Position) : (mkBuilding g m n oid b pos).id = n := rfl

theorem mkParkingLot_id (g : GeomOracle) (m : MapM) (n : Nat) (orig : RawParkingLot)
    (pos dpos : Position) : (mkParkingLot g m n orig pos dpos).id = n := rfl

theorem trim_path_loop_ne (g : GeomOracle) (path : Line) (h : path.pt1 ≠ path.pt2)
    (edges : List (Pt × Pt)) :
    (trim_path_loop g path edges).pt1 ≠ (trim_path_loop g path edges).pt2 := by
  induction edges with
  | nil => simpa [trim_path_loop] using h
  | cons e rest ih =>
    obtain ⟨a, b⟩ := e
    simp only [trim_path_loop]
    cases hi : g.intersection (Line.mk a b) path with
    | none => exact ih
    | some hit =>
      simp only [Line.maybe_new]
      by_cases he : hit = path.pt2
      · simp only [if_pos he]
        exact ih
      · simp only [if_neg he]
        exact he

theorem trim_path_ne (g : GeomOracle) (poly : Polygon) (path : Line)
    (h : path.pt1 ≠ path.pt2) :
    (trim_path g poly path).pt1 ≠ (trim_path g poly path).pt2 :=
  trim_path_loop_ne g path h (windows2 poly.points)

theorem drivewayPos_bounds (m : MapM) (pos dpos : Position)
    (h : drivewayPos m pos = some dpos) :
    7 < dpos.dist_along ∧ 7 < m.lane_length dpos.lane - dpos.dist_along := by
  cases hf : m.find_closest_driving_lane pos.lane with
  | none => simp [drivewayPos, hf] at h
  | some dl =>
    simp only [drivewayPos, hf] at h
    by_cases hb : 7 < m.equiv_pos_dist pos dl
      ∧ 7 < m.lane_length dl - m.equiv_pos_dist pos dl
    · rw [if_pos hb] at h
      obtain rfl : Position.mk dl (m.equiv_pos_dist pos dl) = dpos := Option.some.inj h
      exact ⟨hb.1, hb.2⟩
    · rw [if_neg hb] at h
      exact Option.noConfusion h

theorem mkBuilding_parking_isNone (g : GeomOracle) (m : MapM) (n : Nat)
    (oid : OriginalBuilding) (b : RawBuilding) (pos : Position) :
    (mkBuilding g m n oid b pos).parking.isNone = (drivewayPos m pos).isNone := by
  cases h : drivewayPos m pos <;> simp [mkBuilding, h]

theorem mkBuilding_parking_driving_pos (g : GeomOracle) (m : MapM) (n : Nat)
    (oid : OriginalBuilding) (b : RawBuilding) (pos : Position) (p : OffstreetParking)
    (hp : (mkBuilding g m n oid b pos).parking = some p) :
    drivewayPos m pos = some p.driving_pos := by
  cases h : drivewayPos m pos with
  | none => simp [mkBuilding, h] at hp
  | some dpos =>
    simp only [mkBuilding, h, Option.map_some'] at hp
    obtain rfl := Option.some.inj hp
    simp [h]

theorem buildingsLoop_mem (g : GeomOracle) (m : MapM) (pts : Pt → Option Position)
    (items : List (OriginalBuilding × RawBuilding)) :
    ∀ (n : Nat) (bldg : Building), bldg ∈ (buildingsLoop g m pts items n).1 →
      ∃ p ∈ items, ∃ pos, pts p.2.polygon.center = some pos ∧
        m.pt_of_pos pos ≠ p.2.polygon.center ∧
        ∃ k, bldg = mkBuilding g m k p.1 p.2 pos := by
  induction items with
  | nil => intro n bldg hmem; simp [buildingsLoop] at hmem
  | cons it rest ih =>
    intro n bldg hmem
    obtain ⟨oid, b⟩ := it
    cases hp : pts b.polygon.center with
    | none =>
      simp only [buildingsLoop, hp] at hmem
      obtain ⟨p, hpmem, r⟩ := ih n bldg hmem
      exact ⟨p, List.mem_cons_of_mem _ hpmem, r⟩
    | some pos =>
      simp only [buildingsLoop, hp] at hmem
      by_cases hc : m.pt_of_pos pos = b.polygon.center
      · rw [if_pos hc] at hmem
        obtain ⟨p, hpmem, r⟩ := ih n bldg hmem
        exact ⟨p, List.mem_cons_of_mem _ hpmem, r⟩
      · rw [if_neg hc] at hmem
        rcases List.mem_cons.mp hmem with h | h
        · exact ⟨(oid, b), List.mem_cons_self _ _, pos, hp, hc, n, h⟩
        · obtain ⟨p, hpmem, r⟩ := ih (n + 1) bldg h
          exact ⟨p, List.mem_cons_of_mem _ hpmem, r⟩

theorem buildingsLoop_ids (g : GeomOracle) (m : MapM) (pts : Pt → Option Position)
    (items : List (OriginalBuilding × RawBuilding)) :
    ∀ n : Nat, (buildingsLoop g m pts items n).1.map Building.id =
      List.range' n (buildingsLoop g m pts items n).1.length := by
  induction items with
  | nil => intro n; simp [buildingsLoop]
  | cons it rest ih =>
    intro n
    obtain ⟨oid, b⟩ := it
    cases hp : pts b.polygon.center with
    | none => simp only [buildingsLoop, hp]; exact ih n
    | some pos =>
      by_cases hc : m.pt_of_pos pos = b.polygon.center
      · simp only [buildingsLoop, hp, if_pos hc]
        exact ih n
      · simp only [buildingsLoop, hp, if_neg hc, List.map_cons, List.length_cons,
          range'_cons, mkBuilding_id]
        rw [ih (n + 1)]

theorem buildingsLoop_length (g : GeomOracle) (m : MapM) (pts : Pt → Option Position)
    (items : List (OriginalBuilding × RawBuilding)) :
    ∀ n : Nat, (buildingsLoop g m pts items n).1.length
      + items.countP (bldgSkipped m pts) = items.length := by
  induction items with
  | nil => intro n; simp [buildingsLoop]
  | cons it rest ih =>
    intro n
    obtain ⟨oid, b⟩ := it
    cases hp : pts b.polygon.center with
    | none =>
      have hs : bldgSkipped m pts (oid, b) = true := by simp [bldgSkipped, hp]
      simp only [buildingsLoop, hp, List.countP_cons, hs, if_true, List.length_cons]
      have := ih n
      omega
    | some pos =>
      by_cases hc : m.pt_of_pos pos = b.polygon.center
      · have hs : bldgSkipped m pts (oid, b) = true := by simp [bldgSkipped, hp, hc]
        simp only [buildingsLoop, hp, if_pos hc, List.countP_cons, hs, if_true,
          List.length_cons]
        have := ih n
        omega
      · have hs : bldgSkipped m pts (oid, b) = false := by simp [bldgSkipped, hp, hc]
        simp only [buildingsLoop, hp, if_neg hc, List.countP_cons, hs,
          Bool.false_eq_true, if_false, List.length_cons]
        have := ih (n + 1)
        omega

theorem buildingsLoop_warns (g : GeomOracle) (m : MapM) (pts : Pt → Option Position)
    (items : List (OriginalBuilding × RawBuilding)) :
    ∀ n : Nat, (buildingsLoop g m pts items n).2.length
      = items.countP (bldgDegraded m pts) := by
  induction items with
  | nil => intro n; simp [buildingsLoop]
  | cons it rest ih =>
    intro n
    obtain ⟨oid, b⟩ := it
    cases hp : pts b.polygon.center with
    | none =>
      have hs : bldgDegraded m pts (oid, b) = false := by simp [bldgDegraded, hp]
      simp only [buildingsLoop, hp, List.countP_cons, hs, Bool.false_eq_true, if_false]
      simpa using ih n
    | some pos =>
      by_cases hc : m.pt_of_pos pos = b.polygon.center
      · have hs : bldgDegraded m pts (oid, b) = true := by simp [bldgDegraded, hp, hc]
        simp only [buildingsLoop, hp, if_pos hc, List.countP_cons, hs, if_true,
          List.length_cons]
        rw [ih n]
      · cases hd : drivewayPos m pos with
        | none =>
          have hpk : (mkBuilding g m n oid b pos).parking.isNone = true := by
            rw [mkBuilding_parking_isNone, hd]; rfl
          have hs : bldgDegraded m pts (oid, b) = true := by
            simp [bldgDegraded, hp, hc, hd]
          simp only [buildingsLoop, hp, if_neg hc, hpk, if_true, List.countP_cons, hs,
            List.singleton_append, List.length_cons]
          rw [ih (n + 1)]
        | some dpos =>
          have hpk : (mkBuilding g m n oid b pos).parking.isNone = false := by
            rw [mkBuilding_parking_isNone, hd]; rfl
          have hs : bldgDegraded m pts (oid, b) = false := by
            simp [bldgDegraded, hp, hc, hd]
          simp only [buildingsLoop, hp, if_neg hc, hpk, Bool.false_eq_true, if_false,
            List.countP_cons, hs, List.nil_append]
          simpa using ih (n + 1)

theorem lotsLoop_mem (g : GeomOracle) (m : MapM) (pts : Pt → Option Position)
    (items : List RawParkingLot) :
    ∀ (n : Nat) (lot : ParkingLot), lot ∈ (lotsLoop g m pts items n).1 →
      ∃ o ∈ items, ∃ pos dpos, pts o.polygon.center = some pos ∧
        m.pt_of_pos pos ≠ o.polygon.center ∧
        drivewayPos m pos = some dpos ∧
        ∃ k, lot = mkParkingLot g m k o pos dpos := by
  induction items with
  | nil => intro n lot hmem; simp [lotsLoop] at hmem
  | cons orig rest ih =>
    intro n lot hmem
    cases hp : pts orig.polygon.center with
    | none =>
      simp only [lotsLoop, hp] at hmem
      obtain ⟨o, ho, r⟩ := ih n lot hmem
      exact ⟨o, List.mem_cons_of_mem _ ho, r⟩
    | some pos =>
      by_cases hc : m.pt_of_pos pos = orig.polygon.center
      · simp only [lotsLoop, hp, if_pos hc] at hmem
        obtain ⟨o, ho, r⟩ := ih n lot hmem
        exact ⟨o, List.mem_cons_of_mem _ ho, r⟩
      · cases hd : drivewayPos m pos with
        | none =>
          simp only [lotsLoop, hp, if_neg hc, hd] at hmem
          obtain ⟨o, ho, r⟩ := ih n lot hmem
          exact ⟨o, List.mem_cons_of_mem _ ho, r⟩
        | some dpos =>
          simp only [lotsLoop, hp, if_neg hc, hd] at hmem
          rcases List.mem_cons.mp hmem with h | h
          · exact ⟨orig, List.mem_cons_self _ _, pos, dpos, hp, hc, hd, n, h⟩
          · obtain ⟨o, ho, r⟩ := ih (n + 1) lot h
            exact ⟨o, List.mem_cons_of_mem _ ho, r⟩

theorem lotsLoop_ids (g : GeomOracle) (m : MapM) (pts : Pt → Option Position)
    (items : List RawParkingLot) :
    ∀ n : Nat, (lotsLoop g m pts items n).1.map ParkingLot.id =
      List.range' n (lotsLoop g m pts items n).1.length := by
  induction items with
  | nil => intro n; simp [lotsLoop]
  | cons orig rest ih =>
    intro n
    cases hp : pts orig.polygon.center with
    | none => simp only [lotsLoop, hp]; exact ih n
    | some pos =>
      by_cases hc : m.pt_of_pos pos = orig.polygon.center
      · simp only [lotsLoop, hp, if_pos hc]
        exact ih n
      · cases hd : drivewayPos m pos with
        | none =>
          simp only [lotsLoop, hp, if_neg hc, hd]
          exact ih n
        | some dpos =>
          simp only [lotsLoop, hp, if_neg hc, hd, List.map_cons, List.length_cons,
            range'_cons, mkParkingLot_id]
          rw [ih (n + 1)]

theorem lotsLoop_length (g : GeomOracle) (m : MapM) (pts : Pt → Option Position)
    (items : List RawParkingLot) :
    ∀ n : Nat, (lotsLoop g m pts items n).1.length
      + items.countP (lotSkipped m pts) = items.length := by
  induction items with
  | nil => intro n; simp [lotsLoop]
  | cons orig rest ih =>
    intro n
    cases hp : pts orig.polygon.center with
    | none =>
      have hs : lotSkipped m pts orig = true := by simp [lotSkipped, hp]
      simp only [lotsLoop, hp, List.countP_cons, hs, if_true, List.length_cons]
      have := ih n
      omega
    | some pos =>
      by_cases hc : m.pt_of_pos pos = orig.polygon.center
      · have hs : lotSkipped m pts orig = true := by simp [lotSkipped, hp, hc]
        simp only [lotsLoop, hp, if_pos hc, List.countP_cons, hs, if_true,
          List.length_cons]
        have := ih n
        omega
      · cases hd : drivewayPos m pos with
        | none =>
          have hs : lotSkipped m pts orig = true := by simp [lotSkipped, hp, hc, hd]
          simp only [lotsLoop, hp, if_neg hc, hd, List.countP_cons, hs, if_true,
            List.length_cons]
          have := ih n
          omega
        | some dpos =>
          have hs : lotSkipped m pts orig = false := by simp [lotSkipped, hp, hc, hd]
          simp only [lotsLoop, hp, if_neg hc, hd, List.countP_cons, hs,
            Bool.false_eq_true, if_false, List.length_cons]
          have := ih (n + 1)
          omega

theorem lotsLoop_warns (g : GeomOracle) (m : MapM) (pts : Pt → Option Position)
    (items : List RawParkingLot) :
    ∀ n : Nat, (lotsLoop g m pts items n).2.length
      = items.countP (lotDegraded m pts) := by
  induction items with
  | nil => intro n; simp [lotsLoop]
  | cons orig rest ih =>
    intro n
    cases hp : pts orig.polygon.center with
    | none =>
      have hs : lotDegraded m pts orig = false := by simp [lotDegraded, hp]
      simp only [lotsLoop, hp, List.countP_cons, hs, Bool.false_eq_true, if_false]
      simpa using ih n
    | some pos =>
      by_cases hc : m.pt_of_pos pos = orig.polygon.center
      · have hs : lotDegraded m pts orig = true := by simp [lotDegraded, hp, hc]
        simp only [lotsLoop, hp, if_pos hc, List.countP_cons, hs, if_true,
          List.length_cons]
        rw [ih n]
      · cases hd : drivewayPos m pos with
        | none =>
          have hs : lotDegraded m pts orig = true := by simp [lotDegraded, hp, hc, hd]
          simp only [lotsLoop, hp, if_neg hc, hd, List.countP_cons, hs, if_true,
            List.length_cons]
          rw [ih n]
        | some dpos =>
          have hs : lotDegraded m pts orig = false := by simp [lotDegraded, hp, hc, hd]
          simp only [lotsLoop, hp, if_neg hc, hd, List.countP_cons, hs,
            Bool.false_eq_true, if_false]
          simpa using ih (n + 1)

/-- Claim C1: every entity produced by a building or parking-lot batch has a
connector (front path / sidewalk line) with strictly positive length, that
is, distinct endpoints after trimming; and an entity is produced only
because some input footprint resolved, at the batch search radius, to a
sidewalk position whose point differs from the footprint center. -/
theorem c1_connector_positive_length (input : List (OriginalBuilding × RawBuilding))
    (lots : List RawParkingLot) (m : MapM) (g : GeomOracle) :
    (∀ b ∈ (make_all_buildings input m g).1,
      b.front_path.line.pt1 ≠ b.front_path.line.pt2 ∧
      ∃ p ∈ input, b.polygon = p.2.polygon ∧
        m.resolve 100 p.2.polygon.center = some b.front_path.sidewalk ∧
        m.pt_of_pos b.front_path.sidewalk ≠ p.2.polygon.center) ∧
    (∀ lot ∈ (make_all_parking_lots lots m g).1,
      lot.sidewalk_line.pt1 ≠ lot.sidewalk_line.pt2 ∧
      ∃ o ∈ lots, lot.polygon = o.polygon ∧
        m.resolve 500 o.polygon.center = some lot.sidewalk_pos ∧
        m.pt_of_pos lot.sidewalk_pos ≠ o.polygon.center) := by
  constructor
  · intro b hb
    obtain ⟨p, hpmem, pos, hpos, hne, k, rfl⟩ :=
      buildingsLoop_mem g m (m.resolve 100) input 0 b hb
    constructor
    · exact trim_path_ne g p.2.polygon (Line.mk p.2.polygon.center (m.pt_of_pos pos))
        (fun hq => hne hq.symm)
    · exact ⟨p, hpmem, rfl, hpos, hne⟩
  · intro lot hl
    obtain ⟨o, ho, pos, dpos, hpos, hne, hd, k, rfl⟩ :=
      lotsLoop_mem g m (m.resolve 500) lots 0 lot hl
    constructor
    · exact trim_path_ne g o.polygon (Line.mk o.polygon.center (m.pt_of_pos pos))
        (fun hq => hne hq.symm)
    · exact ⟨o, ho, rfl, hpos, hne⟩

/-- Concrete instantiation of C1 at a batch that produces one building. -/
theorem c1_witness :
    egBldg ∈ (make_all_buildings egInput egM egG).1 ∧
    (egBldg.front_path.line.pt1 ≠ egBldg.front_path.line.pt2 ∧
      ∃ p ∈ egInput, egBldg.polygon = p.2.polygon ∧
        egM.resolve 100 p.2.polygon.center = some egBldg.front_path.sidewalk ∧
        egM.pt_of_pos egBldg.front_path.sidewalk ≠ p.2.polygon.center) :=
  ⟨by decide,
   (c1_connector_positive_length egInput egLots egM egG).1 egBldg (by decide)⟩

/-- Claim C2: the identifiers of the entities produced by each batch are
exactly 0..N-1 in output order, where N is the number of produced
entities; footprints that fail to connect consume no identifier. -/
theorem c2_ids_contiguous (input : List (OriginalBuilding × RawBuilding))
    (lots : List RawParkingLot) (m : MapM) (g : GeomOracle) :
    (make_all_buildings input m g).1.map Building.id
      = List.range (make_all_buildings input m g).1.length ∧
    (make_all_parking_lots lots m g).1.map ParkingLot.id
      = List.range (make_all_parking_lots lots m g).1.length := by
  constructor
  · show (buildingsLoop g m (m.resolve 100) input 0).1.map Building.id
      = List.range (buildingsLoop g m (m.resolve 100) input 0).1.length
    rw [List.range_eq_range' _]
    exact buildingsLoop_ids g m (m.resolve 100) input 0
  · show (lotsLoop g m (m.resolve 500) lots 0).1.map ParkingLot.id
      = List.range (lotsLoop g m (m.resolve 500) lots 0).1.length
    rw [List.range_eq_range' _]
    exact lotsLoop_ids g m (m.resolve 500) lots 0

/-- Claim C3, counterexample: when a boundary edge intersects the connector
exactly at its exterior endpoint, trim_path does not return the segment
from the intersection point to the exterior endpoint (the first-edge rule
the claim states); it skips the degenerate hit and, here, falls back to the
untrimmed line. -/
theorem c3_counterexample :
    trim_path ceG cePoly cePath ≠ trim_path_spec ceG cePoly cePath := by decide

theorem trim_path_loop_eq_amended (g : GeomOracle) (path : Line)
    (edges : List (Pt × Pt)) :
    trim_path_loop g path edges = trim_path_amended_loop g path edges := by
  induction edges with
  | nil => rfl
  | cons e rest ih =>
    obtain ⟨a, b⟩ := e
    simp only [trim_path_loop, trim_path_amended_loop]
    cases hi : g.intersection (Line.mk a b) path with
    | none => exact ih
    | some hit =>
      simp only [Line.maybe_new]
      by_cases he : hit = path.pt2
      · simp only [if_pos he]
        exact ih
      · simp only [if_neg he]

/-- Claim C3 as amended: trim_path walks the boundary edges in order and
returns, for the first edge whose intersection with the input line is a
point distinct from the exterior endpoint, the segment from that point to
the exterior endpoint; edges that do not intersect, or intersect exactly at
the exterior endpoint, are skipped, and if every edge is skipped the
original untrimmed line is returned unchanged. -/
theorem c3_trim_path_amended (g : GeomOracle) (poly : Polygon) (path : Line) :
    trim_path g poly path = trim_path_amended g poly path :=
  trim_path_loop_eq_amended g path (windows2 poly.points)

/-- Claim C4: every produced entity that carries vehicle-access data has
its projected driving position strictly more than 7 meters from both ends
of the driving lane it lies on. -/
theorem c4_driveway_buffer (input : List (OriginalBuilding × RawBuilding))
    (lots : List RawParkingLot) (m : MapM) (g : GeomOracle) :
    (∀ b ∈ (make_all_buildings input m g).1, ∀ p, b.parking = some p →
      7 < p.driving_pos.dist_along ∧
      7 < m.lane_length p.driving_pos.lane - p.driving_pos.dist_along) ∧
    (∀ lot ∈ (make_all_parking_lots lots m g).1,
      7 < lot.driving_pos.dist_along ∧
      7 < m.lane_length lot.driving_pos.lane - lot.driving_pos.dist_along) := by
  constructor
  · intro b hb p hp
    obtain ⟨q, hq, pos, hpos, hne, k, rfl⟩ :=
      buildingsLoop_mem g m (m.resolve 100) input 0 b hb
    exact drivewayPos_bounds m pos p.driving_pos
      (mkBuilding_parking_driving_pos g m k q.1 q.2 pos p hp)
  · intro lot hl
    obtain ⟨o, ho, pos, dpos, hpos, hne, hd, k, rfl⟩ :=
      lotsLoop_mem g m (m.resolve 500) lots 0 lot hl
    exact drivewayPos_bounds m pos dpos hd

/-- Concrete instantiation of C4 at a batch whose one building carries
vehicle access at distance 50 on a lane of length 100. -/
theorem c4_witness :
    egBldg ∈ (make_all_buildings egInput egM egG).1 ∧
    (∀ p, egBldg.parking = some p →
      7 < p.driving_pos.dist_along ∧
      7 < egM.lane_length p.driving_pos.lane - p.driving_pos.dist_along) :=
  ⟨by decide, (c4_driveway_buffer egInput egLots egM egG).1 egBldg (by decide)⟩

/-- Claim C9: every produced parking lot takes its declared capacity when
one is present and otherwise the polygon area divided by 23, truncated to
an integer; dividing area 46 by 23 gives capacity 2. -/
theorem c9_capacity (lots : List RawParkingLot) (m : MapM) (g : GeomOracle) :
    (∀ lot ∈ (make_all_parking_lots lots m g).1, ∃ o ∈ lots,
      lot.osm_id = o.osm_id ∧ lot.polygon = o.polygon ∧
      lot.capacity = o.capacity.getD (estimatedCapacity o.polygon.area)) ∧
    estimatedCapacity 46 = 2 := by
  constructor
  · intro lot hl
    obtain ⟨o, ho, pos, dpos, hpos, hne, hd, k, rfl⟩ :=
      lotsLoop_mem g m (m.resolve 500) lots 0 lot hl
    exact ⟨o, ho, rfl, rfl, rfl⟩
  · decide

/-- Concrete instantiation of C9 at a batch producing one lot with no
declared capacity and polygon area 46; the produced capacity is 2. -/
theorem c9_witness :
    egLot ∈ (make_all_parking_lots egLots egM egG).1 ∧ egLot.capacity = 2 ∧
    (∃ o ∈ egLots, egLot.osm_id = o.osm_id ∧ egLot.polygon = o.polygon ∧
      egLot.capacity = o.capacity.getD (estimatedCapacity o.polygon.area)) :=
  ⟨by decide, rfl, (c9_capacity egLots egM egG).1 egLot (by decide)⟩

/-- Claim C5: a parking lot whose sidewalk connection succeeds but whose
driveway attempt fails contributes nothing to the output (and consumes no
identifier: the counter is unchanged) while emitting the diagnostic that
names its OSM source identifier and its declared capacity; a building in
the same situation is retained in the output with vehicle access absent,
alongside its own diagnostic. -/
theorem c5_lot_discarded_building_retained
    (g : GeomOracle) (m : MapM) (pts : Pt → Option Position)
    (orig : RawParkingLot) (rest : List RawParkingLot)
    (oid : OriginalBuilding) (b : RawBuilding)
    (rest' : List (OriginalBuilding × RawBuilding)) (n : Nat)
    (pos pos' : Position)
    (h1 : pts orig.polygon.center = some pos)
    (h2 : m.pt_of_pos pos ≠ orig.polygon.center)
    (h3 : drivewayPos m pos = none)
    (h4 : pts b.polygon.center = some pos')
    (h5 : m.pt_of_pos pos' ≠ b.polygon.center)
    (h6 : drivewayPos m pos' = none) :
    lotsLoop g m pts (orig :: rest) n
      = ((lotsLoop g m pts rest n).1,
         Diag.lotNoDriveway orig.osm_id orig.capacity :: (lotsLoop g m pts rest n).2) ∧
    buildingsLoop g m pts ((oid, b) :: rest') n
      = (mkBuilding g m n oid b pos' :: (buildingsLoop g m pts rest' (n + 1)).1,
         Diag.buildingNoDriveway n b.num_parking_spots
           :: (buildingsLoop g m pts rest' (n + 1)).2) ∧
    (mkBuilding g m n oid b pos').parking = none := by
  refine ⟨?_, ?_, ?_⟩
  · simp only [lotsLoop, h1, if_neg h2, h3]
  · have hpk : (mkBuilding g m n oid b pos').parking.isNone = true := by
      rw [mkBuilding_parking_isNone, h6]; rfl
    simp only [buildingsLoop, h4, if_neg h5, hpk, if_true, List.singleton_append]
  · simp only [mkBuilding, h6, Option.map_none']

/-- Concrete instantiation of C5: under a network with no driving lanes,
the one-lot batch discards the lot with its diagnostic and the one-building
batch keeps the building without vehicle access. -/
theorem c5_witness :
    lotsLoop egG egMnd (egMnd.resolve 500) [egLotRaw] 0
      = ((lotsLoop egG egMnd (egMnd.resolve 500) [] 0).1,
         Diag.lotNoDriveway egLotRaw.osm_id egLotRaw.capacity
           :: (lotsLoop egG egMnd (egMnd.resolve 500) [] 0).2) ∧
    buildingsLoop egG egMnd (egMnd.resolve 500) [(⟨7⟩, egRawB)] 0
      = (mkBuilding egG egMnd 0 ⟨7⟩ egRawB ⟨0, 50⟩
           :: (buildingsLoop egG egMnd (egMnd.resolve 500) [] 1).1,
         Diag.buildingNoDriveway 0 egRawB.num_parking_spots
           :: (buildingsLoop egG egMnd (egMnd.resolve 500) [] 1).2) ∧
    (mkBuilding egG egMnd 0 ⟨7⟩ egRawB ⟨0, 50⟩).parking = none :=
  c5_lot_discarded_building_retained egG egMnd (egMnd.resolve 500) egLotRaw []
    ⟨7⟩ egRawB [] 0 ⟨0, 50⟩ ⟨0, 50⟩ (by decide) (by decide) (by decide)
    (by decide) (by decide) (by decide)

theorem ne_empty_of_length_pos (s : String) (h : 0 < s.length) : s ≠ "" := by
  intro he
  rw [he] at h
  have h0 : ("" : String).length = 0 := rfl
  omega

/-- Claim C6: address resolution is total and returns a non-empty string
for every tag mapping; with both tags it concatenates them with a space,
with only a street it uses the placeholder plus the street, and with
neither it uses the placeholder plus the display name of the road owning
the sidewalk lane. -/
theorem c6_get_address_total (m : MapM) (lane : LaneID)
    (tags : List (String × String)) :
    get_address tags lane m ≠ "" ∧
    get_address [("addr:housenumber", "10"), ("addr:street", "Main St")] lane m
      = "10 Main St" ∧
    get_address [("addr:street", "Main St")] lane m = "??? Main St" ∧
    get_address [] lane m = "??? " ++ m.road_name lane := by
  have hsp : (" " : String).length = 1 := rfl
  have hqm : ("??? " : String).length = 4 := rfl
  refine ⟨?_, rfl, rfl, rfl⟩
  apply ne_empty_of_length_pos
  unfold get_address
  cases tagsGet tags "addr:housenumber" <;> cases tagsGet tags "addr:street" <;>
    simp only [String.length_append] <;> omega

/-- Claim C7: in each batch, the per-item warnings are in bijection with
the degraded footprints (one warning per zero-length skip and per
no-vehicle-access case), and the single summary diagnostic carries the
count of the footprints that produced no entity, which accounts for the
footprints whose center resolved to no sidewalk position within the
radius. -/
theorem c7_diagnostics_accounting (input : List (OriginalBuilding × RawBuilding))
    (lots : List RawParkingLot) (m : MapM) (g : GeomOracle) :
    (∃ ws, (make_all_buildings input m g).2
        = ws ++ [Diag.discardedBuildings (input.countP (bldgSkipped m (m.resolve 100)))] ∧
      ws.length = input.countP (bldgDegraded m (m.resolve 100))) ∧
    (∃ ws, (make_all_parking_lots lots m g).2
        = ws ++ [Diag.discardedLots (lots.countP (lotSkipped m (m.resolve 500)))] ∧
      ws.length = lots.countP (lotDegraded m (m.resolve 500))) := by
  constructor
  · refine ⟨(buildingsLoop g m (m.resolve 100) input 0).2, ?_,
      buildingsLoop_warns g m (m.resolve 100) input 0⟩
    have h := buildingsLoop_length g m (m.resolve 100) input 0
    have heq : input.length - (buildingsLoop g m (m.resolve 100) input 0).1.length
        = input.countP (bldgSkipped m (m.resolve 100)) := by omega
    show (buildingsLoop g m (m.resolve 100) input 0).2
        ++ [Diag.discardedBuildings
            (input.length - (buildingsLoop g m (m.resolve 100) input 0).1.length)]
      = _
    rw [heq]
  · refine ⟨(lotsLoop g m (m.resolve 500) lots 0).2, ?_,
      lotsLoop_warns g m (m.resolve 500) lots 0⟩
    have h := lotsLoop_length g m (m.resolve 500) lots 0
    have heq : lots.length - (lotsLoop g m (m.resolve 500) lots 0).1.length
        = lots.countP (lotSkipped m (m.resolve 500)) := by omega
    show (lotsLoop g m (m.resolve 500) lots 0).2
        ++ [Diag.discardedLots
            (lots.length - (lotsLoop g m (m.resolve 500) lots 0).1.length)]
      = _
    rw [heq]

/-- Claim C8: the count carried by the end-of-batch summary diagnostic (the
last diagnostic of the batch) equals the input count minus the output
count, for both batches; the output never exceeds the input, so the
subtraction is exact. -/
theorem c8_summary_count (input : List (OriginalBuilding × RawBuilding))
    (lots : List RawParkingLot) (m : MapM) (g : GeomOracle) :
    ((make_all_buildings input m g).2.getLast?
        = some (Diag.discardedBuildings
            (input.length - (make_all_buildings input m g).1.length)) ∧
      (make_all_buildings input m g).1.length ≤ input.length) ∧
    ((make_all_parking_lots lots m g).2.getLast?
        = some (Diag.discardedLots
            (lots.length - (make_all_parking_lots lots m g).1.length)) ∧
      (make_all_parking_lots lots m g).1.length ≤ lots.length) := by
  refine ⟨⟨?_, ?_⟩, ?_, ?_⟩
  · exact List.getLast?_concat _
  · have h := buildingsLoop_length g m (m.resolve 100) input 0
    show (buildingsLoop g m (m.resolve 100) input 0).1.length ≤ input.length
    omega
  · exact List.getLast?_concat _
  · have h := lotsLoop_length g m (m.resolve 500) lots 0
    show (lotsLoop g m (m.resolve 500) lots 0).1.length ≤ lots.length
    omega

/-- Claim C10: a Diagnostic Result built with two warnings and extracted
without a progress context emits a count header followed by both warnings
in insertion order and returns the wrapped value unchanged; one with zero
warnings emits nothing. -/
theorem c10_warn_unwrap {α : Type} (v : α) (w1 w2 : String) :
    (Warn.withWarnings v [w1, w2]).unwrap = (v, ["2 warnings:", w1, w2]) ∧
    (Warn.ok v).unwrap = (v, []) ∧
    (Warn.withWarnings v []).unwrap = (v, []) := by
  refine ⟨?_, rfl, rfl⟩
  have hhdr : toString (2 : Nat) ++ " warnings:" = "2 warnings:" := by decide
  simp [Warn.unwrap, Warn.withWarnings, hhdr]


end AbStreet
